import Mathlib

/-!
Verification of the grant-authoring system's core components against its
specification.  The definitions below are shallow embeddings of the Python
sources:

* `src/generation/voice_guidelines.py`  (voice scoring and grading)
* `src/rag/enhanced_vector_store.py`    (fragment extraction, chunking, retrieval)
* `src/generation/enhanced_generator.py` (generation loop, full application)
* `src/generation/generator.py`         (refinement corruption guard)

Text is modelled as `List Char` (Python `str`).  All analysed inputs are
ASCII; `Char.toLower` and the ASCII word/digit classes coincide with
Python's Unicode-aware `str.lower` / `re` classes on that fragment.
Python's float arithmetic in the scorer only ever touches integral values
(100.0 minus multiples of 3/5/10 plus multiples of 5), which doubles
represent exactly and `round(x, 1)` leaves unchanged, so scores are
modelled as `Int`.
-/

set_option maxRecDepth 100000
set_option maxHeartbeats 1000000

namespace GrantLab

abbrev Text := List Char

/-- Python `str.lower()` restricted to ASCII. -/
def lowerS (s : Text) : Text := s.map Char.toLower

/-- All start positions (ascending) at which `needle` occurs in `hay`,
mirroring the `str.find`/`start = pos + 1` loop in `check_ai_buzzwords`
(overlapping occurrences all counted). -/
def occPositionsAux (needle : Text) : Text → Nat → List Nat
  | [], i => if needle.isEmpty then [i] else []
  | c :: rest, i =>
    (if needle.isPrefixOf (c :: rest) then [i] else []) ++ occPositionsAux needle rest (i + 1)

def occPositions (needle hay : Text) : List Nat := occPositionsAux needle hay 0

/-- Python `needle in hay` (substring containment). -/
def containsSub (needle : Text) : Text → Bool
  | [] => needle.isEmpty
  | c :: rest => needle.isPrefixOf (c :: rest) || containsSub needle rest

/-- `AI_BUZZWORDS_FORBIDDEN` from `voice_guidelines.py`, verbatim and in order. -/
def AI_BUZZWORDS_FORBIDDEN : List String := [
  "catalyze", "leverage", "optimize", "seamless", "seamlessly",
  "robust", "state-of-the-art", "cutting-edge", "innovative",
  "transformative", "groundbreaking", "revolutionary",
  "at the heart of what we do", "at the core of our mission",
  "bridge to empowerment", "pathway that challenges",
  "challenge and change", "deeply rooted in", "far more than",
  "the chasm between", "rectifying the", "not just... but...",
  "ensure", "facilitate", "enhance", "utilize", "implement",
  "strategic deployment", "carefully crafted", "testament to",
  "commitment to excellence", "proven track record",
  "we are proud to", "we are excited to", "we are committed to",
  "we are dedicated to", "we are deeply committed", "we recognize",
  "we understand that", "we believe in the power",
  "transformative movement", "pathways that challenge",
  "dedicated to creating", "driven by a mission to",
  "catalyze significant positive change",
  "generated", "AI-generated", "created by AI", "produced by",
  "this application was", "this proposal was created"]

/-- `SIGNATURE_PHRASES` from `voice_guidelines.py`, flattened into the seven
phrase groups the bonus loop in `calculate_voice_score` iterates over
(the four list-valued categories in dict order, with the
`program_descriptions` dict contributing its three sub-lists in order).
The inner `break` grants at most one +5 bonus per group. -/
def SIGNATURE_PHRASE_GROUPS : List (List String) := [
  [ "We firmly believe that those who are closest to the issues are also best equipped to solve them.",
    "When people gain access to tools, training, and community, they generate the solutions their neighborhoods need most.",
    "Entrepreneurship is more than a business path—it\x27s a tool for reclaiming agency and reshaping local economies.",
    "We champion a new generation of entrepreneurs who prioritize and uplift their neighborhoods.",
    "We create transformative educational programs, technology, and cross-sectoral partnerships that equip program participants with the skills and networks to become founders of organizations driven by social and environmental missions." ],
  [ "For thousands of New Yorkers living in public housing, entrepreneurship is one of the few viable paths to income and ownership.",
    "More than 80% of 2024 participants reported they would not have pursued their venture without this program.",
    "By embedding our accelerator in trusted community spaces, employing NYCHA alumni as instructors, and by providing access to tech and coaching, we create a culturally responsive, high-impact accelerator.",
    "We invite and integrate the feedback of our community members, who we center as experts.",
    "With your support, we will continue to scale a model that transforms untapped potential into community-powered prosperity." ],
  [ "co-designed with NYCHA residents and tenant leaders",
    "co-created with community partners",
    "Our approach is based on user-centered design, where we test our assumptions about community needs and engage in two-way dialogues to cultivate empathy before we design.",
    "We center community voices in every aspect of program development.",
    "designed in partnership with those who will benefit most" ],
  [ "Our Journey platform is a gamified learning experience where participants access multimedia lessons, project-based challenges, and live feedback.",
    "Learners earn gemstones they can cash in for prizes, mentorship sessions, and workshops.",
    "All participants gain lifetime access to our alumni community, curriculum, and career opportunities.",
    "Our platform allows us to meet our learners where they are, provide live feedback, and provide an engaging and gamified learning experience." ],
  [ "Six-month business accelerator co-designed with NYCHA residents and tenant leaders",
    "At our Fulton Houses pilot, we had 60+ signups in the first week",
    "95% of participants were women of color",
    "Culminates in a public pitch competition with seed funding opportunities",
    "Creates community-powered prosperity" ],
  [ "Green workforce training leading to industry-recognized certifications like OSHA and GPRO",
    "Community-owned solar businesses and cooperatives",
    "Addresses both environmental and economic justice" ],
  [ "community-powered prosperity",
    "untapped potential",
    "purpose-driven leaders",
    "social entrepreneurs who solve local challenges",
    "durable skills for 21st century careers",
    "pathways to economic empowerment",
    "generational wealth creation" ] ]

/-- A violation record from `check_ai_buzzwords` (the constant
`"severity": "high"` field is omitted; nothing downstream reads it). -/
structure BuzzViolation where
  buzzword : String
  position : Nat
deriving DecidableEq, Repr

/-- `check_ai_buzzwords`: for each forbidden buzzword, one violation per
(case-insensitive) occurrence position, in list order then position order. -/
def check_ai_buzzwords (text : Text) : List BuzzViolation :=
  AI_BUZZWORDS_FORBIDDEN.flatMap (fun b =>
    (occPositions (lowerS b.data) (lowerS text)).map (fun p => ⟨b, p⟩))

/-- The issue strings appended to `issues` by `calculate_voice_score`.
Each constructor renders to a distinct Python string
(`"AI buzzword: <w>"`, the two fixed required-language messages,
`"Vague language: <w>"`), and the rendering is injective, so equality /
distinctness of `Issue` values coincides with that of the Python strings. -/
inductive Issue
  | buzzword (w : String)
  | underserved
  | missingCodesign
  | vague (w : String)
deriving DecidableEq, Repr

/-- The co-design marker terms from `check_required_language`. -/
def codesignTerms : List String := ["co-design", "co-created", "designed with", "tenant leaders"]

/-- `check_required_language` (each returned dict is represented by its
`issue` tag; the `fix`/`severity` fields are constants unread downstream). -/
def check_required_language (text sectionName : Text) : List Issue :=
  let textLower := lowerS text
  (if containsSub "underserved".data textLower && !containsSub "underestimated".data textLower
   then [Issue.underserved] else []) ++
  (if lowerS sectionName == "methodology".data || lowerS sectionName == "project description".data then
     (if !(codesignTerms.any (fun t => containsSub t.data textLower))
      then [Issue.missingCodesign] else [])
   else [])

/-- Python `\w` on the ASCII fragment. -/
def isWordChar (c : Char) : Bool := c.isAlphanum || c == '_'

/-- Word-boundary check after a candidate match of `w` at the head of `s`. -/
def afterBoundary (w s : Text) : Bool :=
  match s.drop w.length with
  | [] => true
  | c :: _ => !isWordChar c

/-- Positions of whole-word (`\b w \b`) matches of `w` in the text,
as found by `re.finditer` (matches of an alphabetic word delimited by
word boundaries are pairwise disjoint, so `finditer` reports exactly the
set of boundary-delimited occurrence positions). -/
def wordOccAux (w : Text) : Option Char → Text → Nat → List Nat
  | _, [], _ => []
  | prev, c :: rest, i =>
    (if (match prev with | none => true | some p => !isWordChar p)
        && w.isPrefixOf (c :: rest) && afterBoundary w (c :: rest)
     then [i] else [])
    ++ wordOccAux w (some c) rest (i + 1)

/-- A vague-language record from `check_specificity` (the constant
`suggestion`/`severity` fields are omitted; nothing downstream reads them). -/
structure VagueEntry where
  word : String
  position : Nat
deriving DecidableEq, Repr

def vague_words : List String := ["many", "significant", "numerous", "various", "substantial", "considerable"]

/-- `re.search(r"\d+%|\d+ participants|\d+ entrepreneurs|\$\d+|60\+", text)`
as an existence check: each alternative matches somewhere iff a digit is
immediately followed by `%` / `" participants"` / `" entrepreneurs"`, a `$`
is immediately followed by a digit, or the literal `60+` occurs. -/
def headIs (s : Text) (p : Char → Bool) : Bool :=
  match s with
  | [] => false
  | c :: _ => p c

def hasNumbers : Text → Bool
  | [] => false
  | c :: rest =>
    (c.isDigit && headIs rest (fun d => d == '%'))
    || (c.isDigit && " participants".data.isPrefixOf rest)
    || (c.isDigit && " entrepreneurs".data.isPrefixOf rest)
    || (c == '$' && headIs rest Char.isDigit)
    || "60+".data.isPrefixOf (c :: rest)
    || hasNumbers rest

/-- The vague-quantifier entries of `check_specificity`, in word order then
position order (matching the Python loop nesting). -/
def vagueEntries (text : Text) : List VagueEntry :=
  vague_words.flatMap (fun w => (wordOccAux w.data none (lowerS text) 0).map (fun p => ⟨w, p⟩))

/-- The trailing `[no specific data]` entry of `check_specificity`. -/
def noDataEntry (text : Text) : List VagueEntry :=
  if !hasNumbers text && 200 < text.length then [⟨"[no specific data]", 0⟩] else []

/-- `check_specificity`: vague-word entries followed (last) by the
missing-specific-data entry when the text is long and number-free. -/
def check_specificity (text : Text) : List VagueEntry :=
  vagueEntries text ++ noDataEntry text

/-- Number of +5 signature bonuses: one per phrase group containing a
(case-insensitive) substring match, the inner `break` capping each group
at a single bonus. -/
def signature_bonus_groups (text : Text) : Nat :=
  (SIGNATURE_PHRASE_GROUPS.filter
    (fun g => g.any (fun p => containsSub (lowerS p.data) (lowerS text)))).length

/-- `get_grade` from `voice_guidelines.py`. -/
def get_grade (score : Int) : String :=
  if 95 ≤ score then "A+ (Excellent - sounds like Cambio Labs)"
  else if 90 ≤ score then "A (Very Good - minor tweaks needed)"
  else if 85 ≤ score then "B+ (Good - some revisions needed)"
  else if 80 ≤ score then "B (Acceptable - needs improvement)"
  else if 70 ≤ score then "C (Weak - significant revisions needed)"
  else "D/F (Poor - does not sound like Cambio Labs)"

/-- Result dict of `calculate_voice_score`. -/
structure ScoreResult where
  score : Int
  grade : String
  issues : List Issue
  buzzwords : Nat
  missing_required : Nat
  vague_count : Nat
deriving DecidableEq, Repr

/-- The running `score` of `calculate_voice_score` before the final
clamp: 100, minus 5 per buzzword occurrence, minus 10 per missing
required-language item, minus 3 per entry among the first five of
`check_specificity`, plus 5 per matched signature-phrase group. -/
def voiceRaw (text sectionName : Text) : Int :=
  100 - 5 * ((check_ai_buzzwords text).length : Int)
    - 10 * ((check_required_language text sectionName).length : Int)
    - 3 * ((min 5 (check_specificity text).length : Nat) : Int)
    + 5 * ((signature_bonus_groups text : Nat) : Int)

/-- `calculate_voice_score`: the raw score clamped to [0, 100], the grade,
and the issue list accumulated in the same order as the Python loops
(buzzwords, then required language, then the first five specificity
entries).  The final `round(score, 1)` is the identity on these integral
values. -/
def calculate_voice_score (text sectionName : Text) : ScoreResult :=
  let score := min 100 (max 0 (voiceRaw text sectionName))
  { score := score
    grade := get_grade score
    issues := (check_ai_buzzwords text).map (fun v => Issue.buzzword v.buzzword)
      ++ check_required_language text sectionName
      ++ ((check_specificity text).take 5).map (fun v => Issue.vague v.word)
    buzzwords := (check_ai_buzzwords text).length
    missing_required := (check_required_language text sectionName).length
    vague_count := (check_specificity text).length }

/-- The six ordinal grade bands of `get_grade` (5 = top band `≥95`,
0 = lowest band `<70`). -/
def gradeBand (score : Int) : Nat :=
  if 95 ≤ score then 5
  else if 90 ≤ score then 4
  else if 85 ≤ score then 3
  else if 80 ≤ score then 2
  else if 70 ≤ score then 1
  else 0

/-- Rank of a grade string in the ordinal order of the six bands. -/
def gradeRank (g : String) : Nat :=
  if g = "A+ (Excellent - sounds like Cambio Labs)" then 5
  else if g = "A (Very Good - minor tweaks needed)" then 4
  else if g = "B+ (Good - some revisions needed)" then 3
  else if g = "B (Acceptable - needs improvement)" then 2
  else if g = "C (Weak - significant revisions needed)" then 1
  else 0

/-! ## Fragment extraction (`enhanced_vector_store.py`)

The extraction patterns of `extract_data_metrics` and
`extract_codesign_language` are regular expressions of a restricted shape:
sequences of case-insensitive literals, single character classes,
greedy bounded repetitions of character classes, alternations of
literals, and (optional) capture groups, never nested.  `reMatch` below is
a backtracking matcher for exactly that shape with Python `re` semantics:
leftmost alternative preferred, repetitions greedy with backtracking.
`findall` replicates `re.findall`: successive non-overlapping leftmost
matches, each reported as its capture-group contents (an unmatched
optional group reports the empty string), scanning forward one character
when no match starts at the current position. -/

inductive CharCls
  | digit
  | digitComma
  | notSentEnd
  | sentEnd
deriving DecidableEq, Repr

/-- Character-class membership (`\d`, `[\d,]`, `[^.!?]`, `[.!?]`),
ASCII fragment of Python's Unicode classes. -/
def CharCls.matchesC : CharCls → Char → Bool
  | .digit, c => c.isDigit
  | .digitComma, c => c.isDigit || c == ','
  | .notSentEnd, c => !(c == '.' || c == '!' || c == '?')
  | .sentEnd, c => c == '.' || c == '!' || c == '?'

inductive RE
  | lit (s : Text)                        -- case-insensitive literal
  | cls (c : CharCls)                     -- single character of a class
  | rep (c : CharCls) (lo : Nat) (hi : Option Nat)  -- greedy `{lo,hi}` / `+` / `*`
  | alt (a b : RE)                        -- `a|b`, left preferred
  | cat (a b : RE)
  | grp (r : RE)                          -- capturing group `(r)`
  | optGrp (r : RE)                       -- `(r)?` (unmatched group captures "")
  | opt (r : RE)                          -- `r?`, non-capturing, greedy

/-- Case-insensitive "starts with" (pattern literals are stored lowercase). -/
def ciStarts (l s : Text) : Bool := (s.take l.length).map Char.toLower == l

/-- Length of the maximal run of characters of class `cl` at the head. -/
def runLen (cl : CharCls) : Text → Nat
  | [] => 0
  | c :: rest => if cl.matchesC c then runLen cl rest + 1 else 0

/-- Greedy repetition: try consuming `n` characters first, then backtrack
down to `lo`. The caller guarantees every count up to `n` lies within a
run of the repeated class. -/
def tryRep {A : Type} (s : Text) (lo : Nat) (k : Text → Option A) : Nat → Option A
  | 0 => if lo = 0 then k s else none
  | n + 1 =>
    if n + 1 < lo then none
    else
      match k (s.drop (n + 1)) with
      | some r => some r
      | none => tryRep s lo k n

/-- CPS backtracking matcher.  `caps` accumulates capture-group texts in
group order (groups are never nested in the embedded patterns); captures
preserve the original character case. -/
def reMatch {A : Type} : RE → Text → List Text → (Text → List Text → Option A) → Option A
  | .lit l, s, caps, k => if ciStarts l s then k (s.drop l.length) caps else none
  | .cls cl, s, caps, k =>
    match s with
    | [] => none
    | c :: rest => if cl.matchesC c then k rest caps else none
  | .rep cl lo hi, s, caps, k =>
    let run := runLen cl s
    if run < lo then none
    else tryRep s lo (fun s2 => k s2 caps) (min run (hi.getD run))
  | .alt a b, s, caps, k =>
    match reMatch a s caps k with
    | some r => some r
    | none => reMatch b s caps k
  | .cat a b, s, caps, k => reMatch a s caps (fun s2 caps2 => reMatch b s2 caps2 k)
  | .grp r, s, caps, k =>
    reMatch r s caps (fun s2 caps2 => k s2 (caps2 ++ [s.take (s.length - s2.length)]))
  | .optGrp r, s, caps, k =>
    match reMatch r s caps (fun s2 caps2 => k s2 (caps2 ++ [s.take (s.length - s2.length)])) with
    | some res => some res
    | none => k s (caps ++ [[]])
  | .opt r, s, caps, k =>
    match reMatch r s caps k with
    | some res => some res
    | none => k s caps

/-- Anchored match at the head of `s`: consumed length and captures of the
first match in backtracking order (= Python's match at this position). -/
def reMatchTop (r : RE) (s : Text) : Option (Nat × List Text) :=
  reMatch r s [] (fun s2 caps => some (s.length - s2.length, caps))

/-- `re.findall` scan.  Fuel decreases every step (each match of the
embedded patterns consumes at least one character — they all end in a
`[.!?]` class — and a failed position advances by one), so
`length + 1` fuel is always sufficient. -/
def findallAux (r : RE) : Nat → Text → List (Text × List Text)
  | 0, _ => []
  | fuel + 1, s =>
    match reMatchTop r s with
    | some (n, caps) =>
      if n = 0 then
        match s with
        | [] => [([], caps)]
        | _ :: rest => ([], caps) :: findallAux r fuel rest
      else (s.take n, caps) :: findallAux r fuel (s.drop n)
    | none =>
      match s with
      | [] => []
      | _ :: rest => findallAux r fuel rest

/-- Each element is (full match text, capture list). -/
def findall (r : RE) (s : Text) : List (Text × List Text) :=
  findallAux r (s.length + 1) s

def reStr (s : String) : RE := RE.lit s.data

def seqL (l : List RE) : RE := l.foldr RE.cat (RE.lit [])

/-- Python whitespace for `str.strip()` (ASCII fragment). -/
def isPySpace (c : Char) : Bool :=
  c == ' ' || c == '\t' || c == '\n' || c == '\r' || c == '\x0b' || c == '\x0c'

/-- `str.strip()`. -/
def pyStrip (s : Text) : Text :=
  ((s.dropWhile isPySpace).reverse.dropWhile isPySpace).reverse

/-- A fragment produced by the extraction functions: text plus category,
carrying the parent document's metadata unchanged (modelled opaquely). -/
structure Fragment (M : Type) where
  text : Text
  category : String
  meta : M
deriving DecidableEq, Repr

/-- The `number_patterns` of `extract_data_metrics`, with each pattern's
capture-group count (which determines what `re.findall` returns). -/
def number_patterns : List (RE × Nat) := [
  (seqL [RE.rep .digit 1 none, reStr "+ ",
         RE.grp (RE.alt (reStr "signups") (RE.alt (reStr "participants")
           (RE.alt (reStr "residents") (reStr "entrepreneurs")))),
         RE.rep .notSentEnd 0 (some 150), RE.cls .sentEnd], 1),
  (seqL [RE.rep .digit 1 none, reStr "%",
         RE.rep .notSentEnd 5 (some 150), RE.cls .sentEnd], 0),
  (seqL [reStr "$", RE.rep .digitComma 1 none, reStr " ",
         RE.rep .notSentEnd 5 (some 100), RE.cls .sentEnd], 0),
  (seqL [RE.grp (RE.alt (reStr "over") (RE.alt (reStr "more than")
           (RE.alt (reStr "less than") (reStr "under")))),
         reStr " ", RE.rep .digit 1 none, reStr " ",
         RE.rep .notSentEnd 10 (some 150), RE.cls .sentEnd], 1),
  (seqL [RE.rep .digit 1 none, reStr " ",
         RE.grp (RE.alt (RE.cat (reStr "week") (RE.opt (reStr "s")))
           (RE.alt (RE.cat (reStr "month") (RE.opt (reStr "s")))
             (RE.alt (RE.cat (reStr "year") (RE.opt (reStr "s")))
               (RE.cat (reStr "hour") (RE.opt (reStr "s")))))),
         RE.rep .notSentEnd 10 (some 150), RE.cls .sentEnd], 1)]

/-- What `re.findall` hands the loop body: the full match for a 0-group
pattern, the single group's text for a 1-group pattern, a tuple of group
texts otherwise. `extract_data_metrics` joins a tuple with `""`. -/
def dataMatchValue (n : Nat) (full : Text) (caps : List Text) : Text :=
  if n = 0 then full
  else if n = 1 then caps.headD []
  else caps.flatten

/-- `extract_data_metrics`: run every pattern, keep values longer than 10
characters, stripped, category `"statistics"`. -/
def extract_data_metrics {M : Type} (text : Text) (meta : M) : List (Fragment M) :=
  number_patterns.flatMap (fun pn =>
    (findall pn.1 text).filterMap (fun fc =>
      let fm := dataMatchValue pn.2 fc.1 fc.2
      if 10 < fm.length then some ⟨pyStrip fm, "statistics", meta⟩ else none))

/-- The `codesign_patterns` of `extract_codesign_language`, with group counts. -/
def codesign_patterns : List (RE × Nat) := [
  (seqL [reStr "co-design", RE.optGrp (reStr "ed"), reStr " with ",
         RE.rep .notSentEnd 10 (some 150), RE.cls .sentEnd], 1),
  (seqL [reStr "co-creat", RE.optGrp (reStr "ed"), reStr " with ",
         RE.rep .notSentEnd 10 (some 150), RE.cls .sentEnd], 1),
  (seqL [RE.grp (RE.alt (reStr "designed") (reStr "developed")), reStr " ",
         RE.grp (RE.alt (reStr "in partnership") (reStr "in collaboration")),
         reStr " with ", RE.rep .notSentEnd 10 (some 150), RE.cls .sentEnd], 2),
  (seqL [RE.grp (RE.alt (reStr "center") (reStr "centering")), reStr " ",
         RE.rep .notSentEnd 5 (some 50),
         RE.grp (RE.alt (reStr "as experts") (reStr "as leaders")),
         RE.rep .notSentEnd 0 (some 100), RE.cls .sentEnd], 2),
  (seqL [reStr "tenant leader", RE.opt (reStr "s"), reStr " ",
         RE.rep .notSentEnd 10 (some 150), RE.cls .sentEnd], 0),
  (seqL [reStr "user-centered design",
         RE.rep .notSentEnd 10 (some 150), RE.cls .sentEnd], 0)]

/-- `extract_codesign_language` joins a tuple of groups with
`" ".join(m for m in match if m)` — non-empty groups, space-separated. -/
def codesignMatchValue (n : Nat) (full : Text) (caps : List Text) : Text :=
  if n = 0 then full
  else if n = 1 then caps.headD []
  else List.intercalate " ".data (caps.filter (fun c => !c.isEmpty))

/-- `extract_codesign_language`: run every pattern, keep values longer
than 15 characters, stripped, category `"codesign"`. -/
def extract_codesign_language {M : Type} (text : Text) (meta : M) : List (Fragment M) :=
  codesign_patterns.flatMap (fun pn =>
    (findall pn.1 text).filterMap (fun fc =>
      let fm := codesignMatchValue pn.2 fc.1 fc.2
      if 15 < fm.length then some ⟨pyStrip fm, "codesign", meta⟩ else none))

/-- Whitespace normalization: collapse every whitespace run to a single
space (`prevSpace` tracks whether the previous kept character was such a
collapsed space). -/
def collapseWsAux (prevSpace : Bool) : Text → Text
  | [] => []
  | c :: rest =>
    if isPySpace c then
      if prevSpace then collapseWsAux true rest
      else ' ' :: collapseWsAux true rest
    else c :: collapseWsAux false rest

/-- Whitespace-normalized form of a text: runs collapsed, ends trimmed. -/
def normWs (s : Text) : Text := pyStrip (collapseWsAux false s)

/-! ## Chunking (`chunk_text`, `enhanced_vector_store.py`) -/

/-- Python `str.rfind(c)` on a text: last index of `c`, or `-1`. -/
def rfindAux (c : Char) : Text → Nat → Int → Int
  | [], _, acc => acc
  | x :: rest, i, acc => rfindAux c rest (i + 1) (if x == c then (i : Int) else acc)

def rfind (c : Char) (s : Text) : Int := rfindAux c s 0 (-1)

/-- One loop iteration's exclusive end index: `end = start + chunk_size`,
moved back to just after the last sentence terminator or newline of the
chunk when that break point lies past 70% of the chunk size.
`break_point > chunk_size * 0.7` is modelled as `7·chunk_size < 10·bp`;
at the configured `chunk_size = 1500` the float product `1500 * 0.7`
equals `1050.0` exactly, so the two coincide. -/
def chunkCut (text : Text) (chunk_size : Nat) (start : Nat) : Nat :=
  let e := start + chunk_size
  if e < text.length then
    let chunk := (text.drop start).take chunk_size
    let bp := max (rfind '.' chunk) (rfind '\n' chunk)
    if 7 * (chunk_size : Int) < 10 * bp then start + bp.toNat + 1 else e
  else e

/-- The `while start < len(text)` loop of `chunk_text`, with explicit fuel
for totality.  The termination theorem below shows that at the configured
parameters (1500, 200) the loop advances `start` by more than 850 per
iteration, so fuel `text.length + 1` is never exhausted and the result is
fuel-independent beyond that bound — this is exactly the function the
Python loop computes. -/
def chunkLoopFuel (text : Text) (chunk_size overlap : Nat) : Nat → Nat → List Text
  | 0, _ => []
  | fuel + 1, start =>
    if start < text.length then
      let e := chunkCut text chunk_size start
      pyStrip ((text.drop start).take (e - start))
        :: chunkLoopFuel text chunk_size overlap fuel (e - overlap)
    else []

/-- `chunk_text` (defaults `CHUNK_SIZE = 1500`, `CHUNK_OVERLAP = 200` from
`config/settings.py`). -/
def chunk_text (text : Text) (chunk_size overlap : Nat) : List Text :=
  if text.length ≤ chunk_size then [text]
  else chunkLoopFuel text chunk_size overlap (text.length + 1) 0

/-! ## Multi-layer retrieval (`retrieve_multi_layer`, `enhanced_vector_store.py`)

The ChromaDB collections and the embedding provider are external
collaborators; they are modelled as opaque query functions from a query
embedding and a result budget to raw results.  `V` is the embedding-vector
type, `M` the metadata type, `D` the distance type. -/

/-- The shape of `collection.query(...)` results: parallel per-query lists
(one query is issued, so only index 0 is populated). -/
structure RawResults (M D : Type) where
  documents : List (List Text)
  metadatas : List (List M)
  distances : List (List D)

/-- One entry of a `_format_results` output list. -/
structure Formatted (M D : Type) where
  text : Text
  metadata : Option M
  distance : Option D

/-- `_format_results`: empty unless `documents` and `documents[0]` are
non-empty, else one entry per document text with the parallel metadata and
distance (ChromaDB returns parallel arrays; a missing index is modelled as
`none` where Python would raise). -/
def format_results {M D : Type} (raw : RawResults M D) : List (Formatted M D) :=
  match raw.documents.head? with
  | none => []
  | some docs0 =>
    if docs0.isEmpty then []
    else
      (List.range docs0.length).map (fun i =>
        { text := docs0.getD i []
          metadata := (raw.metadatas.headD []).get? i
          distance := (raw.distances.headD []).get? i })

/-- The six specialized collections, as opaque similarity-query functions. -/
structure EnhancedStore (V M D : Type) where
  full_content : V → Nat → RawResults M D
  voice_phrases : V → Nat → RawResults M D
  data_metrics : V → Nat → RawResults M D
  participant_voices : V → Nat → RawResults M D
  codesign_examples : V → Nat → RawResults M D
  program_descriptions : V → Nat → RawResults M D

/-- The dict returned by `retrieve_multi_layer`. -/
structure RetrievalResults (M D : Type) where
  content : List (Formatted M D)
  voice : List (Formatted M D)
  data : List (Formatted M D)
  quotes : List (Formatted M D)
  codesign : List (Formatted M D)
  programs : List (Formatted M D)

/-- `retrieve_multi_layer`: embed the query once, always query content /
voice / data / programs, query `participant_voices` only for the
testimonial sections and `codesign_examples` only for the co-design
sections, returning `[]` for the skipped collections. -/
def retrieve_multi_layer {V M D : Type} (store : EnhancedStore V M D)
    (embed_text : Text → V) (query sectionName : Text)
    (n_content n_voice n_data n_quotes n_codesign n_programs : Nat) :
    RetrievalResults M D :=
  let qe := embed_text query
  { content := format_results (store.full_content qe n_content)
    voice := format_results (store.voice_phrases qe n_voice)
    data := format_results (store.data_metrics qe n_data)
    quotes :=
      if lowerS sectionName == "need statement".data
          || lowerS sectionName == "evaluation plan".data then
        format_results (store.participant_voices qe n_quotes)
      else []
    codesign :=
      if lowerS sectionName == "methodology".data
          || lowerS sectionName == "project description".data then
        format_results (store.codesign_examples qe n_codesign)
      else []
    programs := format_results (store.program_descriptions qe n_programs) }

/-! ## Generation loop (`generate_section`, `enhanced_generator.py`)

The language model is an external nondeterministic collaborator; a run of
`generate_section` is modelled against a function `llm` from the attempt
index to `none` (the API call raised) or `some (text, total_tokens)`.
Prompt construction and the temperature parameter are absorbed into `llm`
(the prompt is rebuilt identically each attempt; only the attempt index
distinguishes calls).  Temperature is still threaded through the state to
mirror the escalation logic (`ℚ` stands in for Python's float here: the
claims under verification never depend on its value). -/

structure AttemptRec where
  attempt : Nat
  score : Int
  tokens : Nat
  issues : List Issue
deriving DecidableEq, Repr

structure GenState where
  bestText : Option Text
  bestScore : Option Int
  attempts : List AttemptRec
  temperature : ℚ
  lastTokens : Nat

structure GenResult where
  text : Option Text
  voice_score : Option Int
  tokens_used : Nat
  attempts : List AttemptRec
deriving DecidableEq, Repr

/-- One validated attempt's state update: track the best attempt on a
strictly greater score (`best_score` starts at `0` and in the validated
path is always an `int`, read back with `getD 0`), then record the
attempt (1-based index, score, tokens, issues). -/
def genStep (sectionName : Text) (i : Nat) (t : Text) (tok : Nat) (st : GenState) : GenState :=
  let ev := calculate_voice_score t sectionName
  let st1 : GenState :=
    if st.bestScore.getD 0 < ev.score then
      { st with bestText := some t, bestScore := some ev.score, lastTokens := tok }
    else { st with lastTokens := tok }
  { st1 with attempts := st1.attempts ++ [⟨i + 1, ev.score, tok, ev.issues⟩] }

/-- The `for attempt in range(max_attempts)` loop.  `r` counts the
remaining iterations (the current attempt index is
`max_attempts - (r+1)`).  A raised API call (`llm i = none`) re-raises on
the final attempt (`.error`) and is skipped otherwise; a validated score
`≥ min_voice_score` (or disabled `auto_fix`) breaks; on a retry before
the final attempt the temperature escalates by 0.1 capped at 0.9; with
validation disabled the first completion breaks with `best_score = None`. -/
def genLoop (llm : Nat → Option (Text × Nat)) (auto_validate auto_fix : Bool)
    (min_voice_score : Int) (sectionName : Text) (max_attempts : Nat) :
    Nat → GenState → Except Unit GenState
  | 0, st => .ok st
  | r + 1, st =>
    let i := max_attempts - (r + 1)
    match llm i with
    | none =>
      if r = 0 then .error ()
      else genLoop llm auto_validate auto_fix min_voice_score sectionName max_attempts r st
    | some (t, tok) =>
      if auto_validate then
        let st2 := genStep sectionName i t tok st
        if min_voice_score ≤ (calculate_voice_score t sectionName).score || !auto_fix then
          .ok st2
        else
          let st3 :=
            if r ≠ 0 then
              { st2 with temperature := min (9 / 10 : ℚ) (st2.temperature + 1 / 10) }
            else st2
          genLoop llm auto_validate auto_fix min_voice_score sectionName max_attempts r st3
      else .ok { st with bestText := some t, bestScore := none, lastTokens := tok }

/-- `generate_section`: run the attempt loop and package the result dict.
`tokens_used` is the sum over recorded attempts when any exist, else the
last completion's token count (with `max_attempts = 0` Python would hit an
unbound local; that configuration is never used and is modelled as `0`). -/
def generate_section (llm : Nat → Option (Text × Nat)) (auto_validate auto_fix : Bool)
    (min_voice_score : Int) (sectionName : Text) (temperature : ℚ)
    (max_attempts : Nat) : Except Unit GenResult :=
  match genLoop llm auto_validate auto_fix min_voice_score sectionName max_attempts
      max_attempts ⟨none, some 0, [], temperature, 0⟩ with
  | .error e => .error e
  | .ok st =>
    .ok { text := st.bestText
          voice_score := st.bestScore
          tokens_used :=
            if st.attempts.isEmpty then st.lastTokens
            else (st.attempts.map (fun a => a.tokens)).sum
          attempts := st.attempts }

/-! ## Full application (`generate_full_application`, `enhanced_generator.py`) -/

/-- Python's `round(x, 1)` on the accumulated mean, modelled over `ℚ` as
round-half-up to one decimal.  (CPython rounds binary floats half to even;
the two differ only at exact `.x5` ties of the float quotient, which the
properties verified here never exercise.) -/
def pyRound1 (q : ℚ) : ℚ := ((⌊q * 10 + 1 / 2⌋ : Int) : ℚ) / 10

structure FullAppAcc where
  sections : List (Text × Option Text)
  sectionMeta : List (Text × Option Int × Nat)
  voice_scores : List (Text × Int)
  total_tokens : Nat
  total_score : Int
  cnt : Nat

structure AppResult where
  sections : List (Text × Option Text)
  sectionMeta : List (Text × Option Int × Nat)
  voice_scores : List (Text × Int)
  total_tokens : Nat
  avg_voice_score : ℚ
deriving DecidableEq, Repr

/-- One section's accumulator update in `generate_full_application`:
always record the section text, its metadata and its token usage; record
the voice score into `voice_scores` and the running mean accumulators
only when it is truthy (present and non-zero — Python's
`if result.get("voice_score"):`). -/
def appAccStep (name : Text) (r : GenResult) (acc : FullAppAcc) : FullAppAcc :=
  let acc1 : FullAppAcc :=
    { acc with
      sections := acc.sections ++ [(name, r.text)]
      total_tokens := acc.total_tokens + r.tokens_used
      sectionMeta := acc.sectionMeta ++ [(name, r.voice_score, r.tokens_used)] }
  match r.voice_score with
  | some v =>
    if v ≠ 0 then
      { acc1 with
        voice_scores := acc1.voice_scores ++ [(name, v)]
        total_score := acc1.total_score + v
        cnt := acc1.cnt + 1 }
    else acc1
  | none => acc1

/-- The per-section loop of `generate_full_application`.  `llmF` gives the
language-model behaviour for each section's calls; an exception from
`generate_section` propagates, aborting the whole application. -/
def fullAppGo (llmF : Text → Nat → Option (Text × Nat)) (auto_validate auto_fix : Bool)
    (min_voice_score : Int) (temperature : ℚ) :
    List Text → FullAppAcc → Except Unit FullAppAcc
  | [], acc => .ok acc
  | name :: rest, acc =>
    match generate_section (llmF name) auto_validate auto_fix min_voice_score name
        temperature 3 with
    | .error e => .error e
    | .ok r =>
      fullAppGo llmF auto_validate auto_fix min_voice_score temperature rest
        (appAccStep name r acc)

/-- `generate_full_application`: sequential sections (each via
`generate_section` with its default `max_attempts = 3`), total token
accumulation, and `avg_voice_score = round(total/count, 1)` over the
sections with a truthy recorded score (`0` when there are none). -/
def generate_full_application (llmF : Text → Nat → Option (Text × Nat))
    (auto_validate auto_fix : Bool) (min_voice_score : Int) (temperature : ℚ)
    (sections : List Text) : Except Unit AppResult :=
  match fullAppGo llmF auto_validate auto_fix min_voice_score temperature sections
      ⟨[], [], [], 0, 0, 0⟩ with
  | .error e => .error e
  | .ok acc =>
    .ok { sections := acc.sections
          sectionMeta := acc.sectionMeta
          voice_scores := acc.voice_scores
          total_tokens := acc.total_tokens
          avg_voice_score :=
            if 0 < acc.cnt then pyRound1 ((acc.total_score : ℚ) / (acc.cnt : ℚ)) else 0 }

/-! ## Refinement corruption guard (`refine_section`, `generator.py`) -/

/-- The `ai_slop_phrases` list from `refine_section`, verbatim. -/
def ai_slop_phrases : List String := [
  "core mission is to", "carefully crafted", "testament to",
  "transformative movement", "pathways that challenge",
  "dedicated to creating", "commitment to excellence",
  "proven track record", "state-of-the-art", "cutting-edge",
  "we are proud to", "we are excited to", "we are committed to",
  "we are dedicated to"]

/-- Number of distinct slop phrases present (case-insensitive substring),
`sum(1 for phrase in ai_slop_phrases if phrase.lower() in text.lower())`. -/
def slopCount (t : Text) : Nat :=
  (ai_slop_phrases.filter (fun p => containsSub (lowerS p.data) (lowerS t))).length

/-- `refined_text.count(' ')` — the space character only, not all whitespace. -/
def spaceCount (t : Text) : Nat := t.countP (fun c => c == ' ')

/-- The post-processing of `refine_section` applied to the language
model's response: strip, reject in favour of the original on ≥ 3 slop
phrases, then on texts over 100 characters reject when the space ratio is
below 10% (`count/len < 0.10` on floats agrees with the exact
`10·count < len` at every realistic length).  The retrieval and prompt
steps feeding the model, and the surrounding `try`, do not affect which
text is returned when the model answers. -/
def refine_section_guard (original_text refined_raw : Text) : Text :=
  let refined := pyStrip refined_raw
  if 3 ≤ slopCount refined then original_text
  else if 100 < refined.length then
    if 10 * spaceCount refined < refined.length then original_text else refined
  else refined

/-! ## Specification predicates and concrete test inputs -/

/-- Loop invariant for the validated generation loop: the tracked best
score is present, non-negative, dominates every recorded attempt, and —
when positive — is the voice score of the tracked best text and is
attained by some recorded attempt. -/
def GenInv (sectionName : Text) (st : GenState) : Prop :=
  ∃ s : Int, st.bestScore = some s ∧ 0 ≤ s
    ∧ (∀ a ∈ st.attempts, a.score ≤ s)
    ∧ (0 < s →
        (∃ t, st.bestText = some t ∧ (calculate_voice_score t sectionName).score = s)
        ∧ ∃ a ∈ st.attempts, a.score = s)

/-- The `voice_scores` entry `generate_full_application` records for one
section: present iff that section's `generate_section` result completes
with a truthy (present and non-zero) voice score. -/
def sectionScoreEntry (llmF : Text → Nat → Option (Text × Nat)) (av af : Bool)
    (ms : Int) (temperature : ℚ) (name : Text) : Option (Text × Int) :=
  match generate_section (llmF name) av af ms name temperature 3 with
  | .ok r =>
    match r.voice_score with
    | some v => if v ≠ 0 then some (name, v) else none
    | none => none
  | .error _ => none

/-- The empty section name (used where Python passes `""`). -/
def emptyT : Text := []

def exSummaryS : Text := "Executive Summary".data

/-- Concrete scenario B text from the spec. -/
def badVoiceText : Text :=
  "We leverage our innovative platform to ensure significant positive change for underserved communities.".data

/-- Five whole-word vague quantifiers followed by 200 neutral filler
characters: 225 characters, no numeric pattern, no buzzword. -/
def capText : Text := "many many many many many ".data ++ List.replicate 200 'z'

/-- 201 neutral characters: long enough for the missing-data check, with
no vague word and no numeric pattern. -/
def z201 : Text := List.replicate 201 'z'

/-- A document on which the `(center|centering) ... (as experts|as leaders)`
co-design pattern matches. -/
def codesignDoc : Text := "We center community voices as experts in our process.".data

/-- Concrete scenario A sentence from the spec. -/
def fultonSentence : Text :=
  "At our Fulton Houses pilot, we had 60+ signups in the first week".data

/-- A document consisting of exactly that sentence. -/
def fultonDoc : Text :=
  "At our Fulton Houses pilot, we had 60+ signups in the first week.".data

/-- A store whose every collection returns one non-empty result, so that
a skipped collection is distinguishable from an empty one. -/
def unitRaw : RawResults Unit Unit :=
  { documents := [["hello world".data]], metadatas := [[()]], distances := [[()]] }

def unitStore : EnhancedStore Unit Unit Unit :=
  { full_content := fun _ _ => unitRaw
    voice_phrases := fun _ _ => unitRaw
    data_metrics := fun _ _ => unitRaw
    participant_voices := fun _ _ => unitRaw
    codesign_examples := fun _ _ => unitRaw
    program_descriptions := fun _ _ => unitRaw }

/-- 20 forbidden-buzzword occurrences: 20·5 = 100 points of deductions,
so this text scores exactly 0. -/
def zeroText : Text := (List.replicate 20 "leverage ".data).flatten

/-- A language model stub that always completes with the 0-scoring text. -/
def zeroLLM : Nat → Option (Text × Nat) := fun _ => some (zeroText, 10)

/-- A language model stub that always completes with a clean text
(no deductions, score 100). -/
def goodLLM : Nat → Option (Text × Nat) := fun _ => some ("zzz".data, 5)

/-- The result `generate_section` produces for `goodLLM` with validation:
the first attempt scores 100 ≥ 85 and breaks. -/
def goodGenResult : GenResult :=
  { text := some "zzz".data
    voice_score := some 100
    tokens_used := 5
    attempts := [⟨1, 100, 5, []⟩] }

/-- Per-section stub: section "A" always completes with the 0-scoring
text, every other section with a clean 100-scoring text. -/
def twoLLM : Text → Nat → Option (Text × Nat) := fun name _ =>
  if name == "A".data then some (zeroText, 1) else some ("zzz".data, 2)

/-- Per-section stub that always completes with a clean text. -/
def oneLLM : Text → Nat → Option (Text × Nat) := fun _ _ => some ("zzz".data, 5)

/-- The application `generate_full_application` produces for `oneLLM` on
the single section "Need Statement" (the average term evaluates to 100). -/
def oneApp : AppResult :=
  { sections := [("Need Statement".data, some "zzz".data)]
    sectionMeta := [("Need Statement".data, some 100, 5)]
    voice_scores := [("Need Statement".data, 100)]
    total_tokens := 5
    avg_voice_score := pyRound1 (((100 : Int) : ℚ) / ((1 : Nat) : ℚ)) }

/-- 2000 neutral characters, for exercising the chunk loop. -/
def z2000 : Text := List.replicate 2000 'z'

/-! ## Helper lemmas -/

theorem calc_score_spec (t s : Text) :
    (calculate_voice_score t s).score = min 100 (max 0 (voiceRaw t s)) := rfl

theorem calc_issues_spec (t s : Text) :
    (calculate_voice_score t s).issues
      = (check_ai_buzzwords t).map (fun v => Issue.buzzword v.buzzword)
        ++ check_required_language t s
        ++ ((check_specificity t).take 5).map (fun v => Issue.vague v.word) := rfl

theorem calc_score_nonneg (t s : Text) : 0 ≤ (calculate_voice_score t s).score := by
  rw [calc_score_spec]
  exact le_min (by norm_num) (le_max_left 0 _)

theorem calc_score_le (t s : Text) : (calculate_voice_score t s).score ≤ 100 := by
  rw [calc_score_spec]
  exact min_le_left _ _

theorem get_grade_eq_of_band_eq (x y : Int) (h : gradeBand x = gradeBand y) :
    get_grade x = get_grade y := by
  unfold gradeBand at h
  unfold get_grade
  split_ifs at h ⊢ <;> first | rfl | omega

theorem band_eq_of_get_grade_eq (x y : Int) (h : get_grade x = get_grade y) :
    gradeBand x = gradeBand y := by
  unfold get_grade at h
  unfold gradeBand
  split_ifs at h ⊢ <;> first | rfl | omega | exact absurd h (by decide)

theorem gradeRank_get_grade (x : Int) : gradeRank (get_grade x) = gradeBand x := by
  unfold get_grade gradeBand
  split_ifs <;> decide

/-! ## Claim theorems -/

/-- C1: for every text and section name, `calculate_voice_score` returns
a score in [0, 100] and a grade that is `get_grade` of that score;
`get_grade` is a step function of the score with exactly six ordinal
bands (cut-offs 95, 90, 85, 80, 70): scores in the same band get the
same grade, distinct bands get distinct grades, a higher band never gets
a lower grade, and all six bands are attained. -/
theorem voice_score_range_and_grade_step :
    ∀ t sectionName : Text,
      (0 ≤ (calculate_voice_score t sectionName).score
        ∧ (calculate_voice_score t sectionName).score ≤ 100)
      ∧ (calculate_voice_score t sectionName).grade
          = get_grade (calculate_voice_score t sectionName).score
      ∧ (∀ x y : Int, gradeBand x = gradeBand y → get_grade x = get_grade y)
      ∧ (∀ x y : Int, get_grade x = get_grade y → gradeBand x = gradeBand y)
      ∧ (∀ x y : Int, gradeBand x ≤ gradeBand y →
          gradeRank (get_grade x) ≤ gradeRank (get_grade y))
      ∧ gradeBand 60 = 0 ∧ gradeBand 72 = 1 ∧ gradeBand 81 = 2
      ∧ gradeBand 86 = 3 ∧ gradeBand 92 = 4 ∧ gradeBand 97 = 5 := by
  intro t s
  refine ⟨⟨calc_score_nonneg t s, calc_score_le t s⟩, rfl,
    get_grade_eq_of_band_eq, band_eq_of_get_grade_eq, ?_,
    by decide, by decide, by decide, by decide, by decide, by decide⟩
  intro x y h
  rw [gradeRank_get_grade, gradeRank_get_grade]
  exact h

/-- Witness for C1 at concrete inputs: the scenario-B text with the
"Executive Summary" section, and concrete scores 92/93 (same band),
75/88 (increasing bands). -/
theorem voice_score_range_and_grade_step_witness :
    (0 ≤ (calculate_voice_score badVoiceText exSummaryS).score
      ∧ (calculate_voice_score badVoiceText exSummaryS).score ≤ 100)
    ∧ get_grade 92 = get_grade 93
    ∧ gradeBand 92 = gradeBand 93
    ∧ gradeRank (get_grade 75) ≤ gradeRank (get_grade 88) :=
  ⟨(voice_score_range_and_grade_step badVoiceText exSummaryS).1,
   (voice_score_range_and_grade_step badVoiceText exSummaryS).2.2.1 92 93 (by decide),
   (voice_score_range_and_grade_step badVoiceText exSummaryS).2.2.2.1 92 93 (by decide),
   (voice_score_range_and_grade_step badVoiceText exSummaryS).2.2.2.2.1 75 88 (by decide)⟩

/-- C2 counterexample: the scenario-B text scores exactly 72 with section
"Executive Summary" — not strictly below 70 as claimed.  Only three
forbidden buzzwords occur (leverage, innovative, ensure: −15), plus the
underserved-without-underestimated deduction (−10) and one vague word
(−3). -/
theorem buzzword_scenario_score_counterexample :
    (calculate_voice_score badVoiceText exSummaryS).score = 72
    ∧ ¬ (calculate_voice_score badVoiceText exSummaryS).score < 70 := by
  decide

/-- C2 (amended): for every section name outside the co-design-required
subset, the scenario-B text scores exactly 72 — strictly below the
acceptance threshold 85 and below 80, but not below 70 — and its issues
list consists of exactly these five pairwise-distinct issues. -/
theorem buzzword_scenario_amended :
    ∀ sectionName : Text,
      lowerS sectionName ≠ "methodology".data →
      lowerS sectionName ≠ "project description".data →
      (calculate_voice_score badVoiceText sectionName).score = 72
      ∧ (calculate_voice_score badVoiceText sectionName).issues
          = [Issue.buzzword "leverage", Issue.buzzword "innovative",
             Issue.buzzword "ensure", Issue.underserved, Issue.vague "significant"]
      ∧ (calculate_voice_score badVoiceText sectionName).issues.Nodup
      ∧ 5 ≤ (calculate_voice_score badVoiceText sectionName).issues.length := by
  intro s h1 h2
  have hcond : (lowerS s == "methodology".data
      || lowerS s == "project description".data) = false := by
    simp only [Bool.or_eq_false_iff, beq_eq_false_iff_ne, ne_eq]
    exact ⟨h1, h2⟩
  have hreq : check_required_language badVoiceText s = [Issue.underserved] := by
    unfold check_required_language
    rw [hcond]
    decide
  have hmain : calculate_voice_score badVoiceText s =
      { score := 72
        grade := "C (Weak - significant revisions needed)"
        issues := [Issue.buzzword "leverage", Issue.buzzword "innovative",
                   Issue.buzzword "ensure", Issue.underserved, Issue.vague "significant"]
        buzzwords := 3
        missing_required := 1
        vague_count := 1 } := by
    unfold calculate_voice_score voiceRaw
    rw [hreq]
    decide
  rw [hmain]
  exact ⟨rfl, rfl, by decide, by decide⟩

/-- Witness for C2 (amended) at the concrete section "Executive Summary". -/
theorem buzzword_scenario_amended_witness :
    (calculate_voice_score badVoiceText exSummaryS).score = 72
    ∧ (calculate_voice_score badVoiceText exSummaryS).issues
        = [Issue.buzzword "leverage", Issue.buzzword "innovative",
           Issue.buzzword "ensure", Issue.underserved, Issue.vague "significant"]
    ∧ (calculate_voice_score badVoiceText exSummaryS).issues.Nodup
    ∧ 5 ≤ (calculate_voice_score badVoiceText exSummaryS).issues.length :=
  buzzword_scenario_amended exSummaryS (by decide) (by decide)

/-- C3 counterexample: `capText` is longer than 200 characters with no
numeric pattern, so `check_specificity` does append the missing-data
entry (6 entries in all) — but the `[:5]` cap in `calculate_voice_score`
drops it: the score is 85 = 100 − 3·5 (not 82) and no missing-data issue
is recorded, refuting "regardless of how many vague-quantifier
occurrences". -/
theorem missing_data_cap_counterexample :
    200 < capText.length
    ∧ hasNumbers capText = false
    ∧ (vagueEntries capText).length = 5
    ∧ (check_specificity capText).length = 6
    ∧ (calculate_voice_score capText emptyT).score = 85
    ∧ Issue.vague "[no specific data]" ∉ (calculate_voice_score capText emptyT).issues := by
  decide

/-- C3 (amended): the missing-data deduction shares the first-five cap
with the vague-word deductions.  For every text longer than 200
characters with no numeric pattern and at most 4 vague-quantifier
occurrences, the missing-data entry falls within the cap: an issue is
recorded and the 3-point deduction is applied (the −3·(v+1) term below);
with 5 or more vague occurrences it is dropped (counterexample above). -/
theorem missing_data_cap_amended :
    ∀ (t sectionName : Text),
      200 < t.length → hasNumbers t = false → (vagueEntries t).length ≤ 4 →
      Issue.vague "[no specific data]" ∈ (calculate_voice_score t sectionName).issues
      ∧ (calculate_voice_score t sectionName).score =
          min 100 (max 0 (100 - 5 * ((check_ai_buzzwords t).length : Int)
            - 10 * ((check_required_language t sectionName).length : Int)
            - 3 * (((vagueEntries t).length : Int) + 1)
            + 5 * ((signature_bonus_groups t : Nat) : Int))) := by
  intro t s hlen hnum hv
  have hnd : check_specificity t = vagueEntries t ++ [⟨"[no specific data]", 0⟩] := by
    unfold check_specificity noDataEntry
    rw [hnum]
    simp [hlen]
  have hlen6 : (check_specificity t).length = (vagueEntries t).length + 1 := by
    rw [hnd]; simp
  have htake : (check_specificity t).take 5 = vagueEntries t ++ [⟨"[no specific data]", 0⟩] := by
    rw [hnd]
    apply List.take_of_length_le
    simp
    omega
  constructor
  · rw [calc_issues_spec, htake]
    refine List.mem_append_right _ ?_
    simp
  · rw [calc_score_spec]
    unfold voiceRaw
    rw [hlen6]
    have hmin : min 5 ((vagueEntries t).length + 1) = (vagueEntries t).length + 1 := by
      omega
    rw [hmin]
    push_cast
    ring_nf

/-- Witness for C3 (amended) at the concrete 201-character text `z201`
(zero vague occurrences). -/
theorem missing_data_cap_amended_witness :
    Issue.vague "[no specific data]" ∈ (calculate_voice_score z201 emptyT).issues
    ∧ (calculate_voice_score z201 emptyT).score =
        min 100 (max 0 (100 - 5 * ((check_ai_buzzwords z201).length : Int)
          - 10 * ((check_required_language z201 emptyT).length : Int)
          - 3 * (((vagueEntries z201).length : Int) + 1)
          + 5 * ((signature_bonus_groups z201 : Nat) : Int))) :=
  missing_data_cap_amended z201 emptyT (by decide) (by decide) (by decide)

/-- C4 (code bug): on `codesignDoc`, `extract_codesign_language` produces
exactly one fragment, with text "center as experts" — the space-join of
the two capture groups of the `(center|centering) [^.!?]{5,50}(as
experts|as leaders)...` pattern, whose middle is dropped because
`re.findall` returns group tuples, not full matches.  That text is not a
substring of the document, even after whitespace normalization, refuting
the verbatim-substring invariant. -/
theorem codesign_fragment_not_substring :
    extract_codesign_language codesignDoc ()
      = [{ text := "center as experts".data, category := "codesign", meta := () }]
    ∧ containsSub "center as experts".data codesignDoc = false
    ∧ containsSub (normWs "center as experts".data) (normWs codesignDoc) = false := by
  decide

/-- C5 (code bug): on the document consisting exactly of the scenario-A
sentence (plus its final period), `extract_data_metrics` produces no
fragment at all — the `\d+\+ (signups|...)` pattern does match, but
`re.findall` returns only the captured group "signups" (7 characters),
which the `len > 10` filter discards — so no DataMetric fragment contains
the sentence. -/
theorem fulton_sentence_no_metric :
    containsSub fultonSentence fultonDoc = true
    ∧ extract_data_metrics fultonDoc () = []
    ∧ (findall (number_patterns.headD (RE.lit [], 0)).1 fultonDoc).map Prod.snd
        = [["signups".data]] := by
  decide

/-- C6: `retrieve_multi_layer` returns an empty quotes list whenever the
lowercased section name is neither "need statement" nor "evaluation
plan", and an empty codesign list whenever it is neither "methodology"
nor "project description" — for every store, embedder, query and result
budgets. -/
theorem retrieve_quotes_codesign_gating :
    ∀ (V M D : Type) (store : EnhancedStore V M D) (embed_text : Text → V)
      (query sectionName : Text) (nc nv nd nq ncd np : Nat),
      ((lowerS sectionName ≠ "need statement".data
          ∧ lowerS sectionName ≠ "evaluation plan".data) →
        (retrieve_multi_layer store embed_text query sectionName nc nv nd nq ncd np).quotes = [])
      ∧ ((lowerS sectionName ≠ "methodology".data
          ∧ lowerS sectionName ≠ "project description".data) →
        (retrieve_multi_layer store embed_text query sectionName nc nv nd nq ncd np).codesign = []) := by
  intro V M D store embed query s nc nv nd nq ncd np
  constructor
  · rintro ⟨h1, h2⟩
    have hb : (lowerS s == "need statement".data
        || lowerS s == "evaluation plan".data) = false := by
      simp only [Bool.or_eq_false_iff, beq_eq_false_iff_ne, ne_eq]
      exact ⟨h1, h2⟩
    have hq : (retrieve_multi_layer store embed query s nc nv nd nq ncd np).quotes
        = if lowerS s == "need statement".data || lowerS s == "evaluation plan".data
          then format_results (store.participant_voices (embed query) nq) else [] := rfl
    rw [hq, hb]
    rfl
  · rintro ⟨h1, h2⟩
    have hb : (lowerS s == "methodology".data
        || lowerS s == "project description".data) = false := by
      simp only [Bool.or_eq_false_iff, beq_eq_false_iff_ne, ne_eq]
      exact ⟨h1, h2⟩
    have hq : (retrieve_multi_layer store embed query s nc nv nd nq ncd np).codesign
        = if lowerS s == "methodology".data || lowerS s == "project description".data
          then format_results (store.codesign_examples (embed query) ncd) else [] := rfl
    rw [hq, hb]
    rfl

/-- Witness for C6: a store whose every collection (including
`participant_voices` and `codesign_examples`) holds retrievable data,
queried for the "Budget Narrative" section, still yields empty quotes and
codesign lists. -/
theorem retrieve_quotes_codesign_gating_witness :
    (retrieve_multi_layer unitStore (fun _ => ()) "economic empowerment".data
        "Budget Narrative".data 3 5 3 2 2 3).quotes = []
    ∧ (retrieve_multi_layer unitStore (fun _ => ()) "economic empowerment".data
        "Budget Narrative".data 3 5 3 2 2 3).codesign = [] :=
  ⟨(retrieve_quotes_codesign_gating Unit Unit Unit unitStore (fun _ => ())
      "economic empowerment".data "Budget Narrative".data 3 5 3 2 2 3).1
      ⟨by decide, by decide⟩,
   (retrieve_quotes_codesign_gating Unit Unit Unit unitStore (fun _ => ())
      "economic empowerment".data "Budget Narrative".data 3 5 3 2 2 3).2
      ⟨by decide, by decide⟩⟩

theorem GenInv_setTemp (sectionName : Text) (st : GenState) (x : ℚ)
    (h : GenInv sectionName st) : GenInv sectionName { st with temperature := x } :=
  h

theorem genStep_inv (sectionName : Text) (i : Nat) (t : Text) (tok : Nat) (st : GenState)
    (h : GenInv sectionName st) : GenInv sectionName (genStep sectionName i t tok st) := by
  obtain ⟨s, hbs, hs0, hall, hpos⟩ := h
  simp only [genStep, hbs, Option.getD_some]
  by_cases hlt : s < (calculate_voice_score t sectionName).score
  · rw [if_pos hlt]
    refine ⟨(calculate_voice_score t sectionName).score, rfl,
      calc_score_nonneg t sectionName, ?_, ?_⟩
    · intro a ha
      rcases List.mem_append.mp ha with ha | ha
      · exact le_of_lt (lt_of_le_of_lt (hall a ha) hlt)
      · rw [List.mem_singleton.mp ha]
    · intro _
      exact ⟨⟨t, rfl, rfl⟩,
        ⟨⟨i + 1, (calculate_voice_score t sectionName).score, tok,
          (calculate_voice_score t sectionName).issues⟩, by simp, rfl⟩⟩
  · rw [if_neg hlt]
    refine ⟨s, rfl, hs0, ?_, ?_⟩
    · intro a ha
      rcases List.mem_append.mp ha with ha | ha
      · exact hall a ha
      · rw [List.mem_singleton.mp ha]
        exact le_of_not_lt hlt
    · intro h0
      obtain ⟨⟨t0, hbt, hsc⟩, a0, ha0, hsc0⟩ := hpos h0
      exact ⟨⟨t0, hbt, hsc⟩, a0, List.mem_append_left _ ha0, hsc0⟩

theorem genLoop_inv (llm : Nat → Option (Text × Nat)) (af : Bool) (ms : Int)
    (sectionName : Text) (maxA : Nat) :
    ∀ (r : Nat) (st st2 : GenState),
      genLoop llm true af ms sectionName maxA r st = .ok st2 →
      GenInv sectionName st → GenInv sectionName st2 := by
  intro r
  induction r with
  | zero =>
    intro st st2 h hinv
    simp only [genLoop] at h
    cases h
    exact hinv
  | succ n ih =>
    intro st st2 h hinv
    rw [genLoop] at h
    cases hllm : llm (maxA - (n + 1)) with
    | none =>
      rw [hllm] at h
      have h2 : (if n = 0 then (Except.error () : Except Unit GenState)
          else genLoop llm true af ms sectionName maxA n st) = Except.ok st2 := h
      by_cases hn : n = 0
      · rw [if_pos hn] at h2
        exact Except.noConfusion h2
      · rw [if_neg hn] at h2
        exact ih st st2 h2 hinv
    | some p =>
      obtain ⟨t, tok⟩ := p
      rw [hllm] at h
      have h2 : (if ms ≤ (calculate_voice_score t sectionName).score || !af then
            Except.ok (genStep sectionName (maxA - (n + 1)) t tok st)
          else
            genLoop llm true af ms sectionName maxA n
              (if n ≠ 0 then
                { genStep sectionName (maxA - (n + 1)) t tok st with
                  temperature := min (9 / 10 : ℚ)
                    ((genStep sectionName (maxA - (n + 1)) t tok st).temperature + 1 / 10) }
              else genStep sectionName (maxA - (n + 1)) t tok st)) = Except.ok st2 := h
      split at h2
      · cases h2
        exact genStep_inv sectionName _ t tok st hinv
      · refine ih _ st2 h2 ?_
        by_cases hn : n ≠ 0
        · rw [if_pos hn]
          exact GenInv_setTemp sectionName _ _ (genStep_inv sectionName _ t tok st hinv)
        · rw [if_neg hn]
          exact genStep_inv sectionName _ t tok st hinv

/-- C7 counterexample: with a language model that always completes with a
0-scoring text, all three validated attempts complete and are recorded
(scores [0, 0, 0]) yet the returned text is `None`: `best_score` starts
at 0 and is only replaced on a strictly greater score, so a completed
attempt is discarded in favour of nothing. -/
theorem generate_section_all_zero_counterexample :
    (generate_section zeroLLM true true 85 exSummaryS (7 / 10) 3).map
        (fun r => (r.text, r.voice_score, r.attempts.map (fun a => a.score)))
      = Except.ok (none, some 0, [0, 0, 0]) := by
  rfl

/-- C7 (amended): whenever `generate_section` (with validation) returns
and at least one completed attempt scored strictly above 0, the returned
text is present and is a text whose voice score equals the returned
`voice_score`, which dominates every recorded attempt's score and is
attained by one of them.  (With only 0-scoring completed attempts the
function returns `text = None`, per the counterexample.) -/
theorem generate_section_best_attempt_amended :
    ∀ (llm : Nat → Option (Text × Nat)) (af : Bool) (ms : Int) (sectionName : Text)
      (temperature : ℚ) (maxA : Nat) (res : GenResult),
      generate_section llm true af ms sectionName temperature maxA = .ok res →
      (∃ a ∈ res.attempts, 0 < a.score) →
      ∃ t, res.text = some t
        ∧ res.voice_score = some ((calculate_voice_score t sectionName).score)
        ∧ (∀ a ∈ res.attempts, a.score ≤ (calculate_voice_score t sectionName).score)
        ∧ ∃ a ∈ res.attempts, a.score = (calculate_voice_score t sectionName).score := by
  intro llm af ms sN temp maxA res h hex
  unfold generate_section at h
  cases hloop : genLoop llm true af ms sN maxA maxA ⟨none, some 0, [], temp, 0⟩ with
  | error e =>
    rw [hloop] at h
    exact Except.noConfusion h
  | ok st =>
    rw [hloop] at h
    have h2 : Except.ok ({ text := st.bestText, voice_score := st.bestScore,
                           tokens_used := if st.attempts.isEmpty then st.lastTokens
                             else (st.attempts.map (fun a => a.tokens)).sum,
                           attempts := st.attempts } : GenResult) = Except.ok res := h
    cases h2
    have hinv := genLoop_inv llm af ms sN maxA maxA _ _ hloop
      ⟨0, rfl, le_refl 0,
       fun a ha => absurd ha (List.not_mem_nil a),
       fun h0 => absurd h0 (lt_irrefl 0)⟩
    obtain ⟨s, hbs, hs0, hall, hpos⟩ := hinv
    obtain ⟨a, ha, hapos⟩ := hex
    have hspos : 0 < s := lt_of_lt_of_le hapos (hall a ha)
    obtain ⟨⟨t, hbt, hts⟩, a0, ha0, hsc0⟩ := hpos hspos
    refine ⟨t, hbt, ?_, ?_, ⟨a0, ha0, ?_⟩⟩
    · rw [hts]
      exact hbs
    · intro b hb
      rw [hts]
      exact hall b hb
    · rw [hts]
      exact hsc0

/-- Witness for C7 (amended): a model stub whose single validated attempt
scores 100 — the result carries that text and score. -/
theorem generate_section_best_attempt_amended_witness :
    ∃ t, goodGenResult.text = some t
      ∧ goodGenResult.voice_score = some ((calculate_voice_score t "Need Statement".data).score)
      ∧ (∀ a ∈ goodGenResult.attempts,
          a.score ≤ (calculate_voice_score t "Need Statement".data).score)
      ∧ ∃ a ∈ goodGenResult.attempts,
          a.score = (calculate_voice_score t "Need Statement".data).score :=
  generate_section_best_attempt_amended goodLLM true 85 "Need Statement".data (7 / 10) 3
    goodGenResult (by rfl) ⟨⟨1, 100, 5, []⟩, by decide, by decide⟩

theorem appAccStep_none (name : Text) (r : GenResult) (acc : FullAppAcc)
    (hvs : r.voice_score = none) :
    appAccStep name r acc =
      { acc with sections := acc.sections ++ [(name, r.text)],
                 total_tokens := acc.total_tokens + r.tokens_used,
                 sectionMeta := acc.sectionMeta ++ [(name, r.voice_score, r.tokens_used)] } := by
  simp only [appAccStep, hvs]

theorem appAccStep_some_ne (name : Text) (r : GenResult) (acc : FullAppAcc) (v : Int)
    (hvs : r.voice_score = some v) (hv0 : v ≠ 0) :
    appAccStep name r acc =
      { acc with sections := acc.sections ++ [(name, r.text)],
                 total_tokens := acc.total_tokens + r.tokens_used,
                 sectionMeta := acc.sectionMeta ++ [(name, r.voice_score, r.tokens_used)],
                 voice_scores := acc.voice_scores ++ [(name, v)],
                 total_score := acc.total_score + v,
                 cnt := acc.cnt + 1 } := by
  simp only [appAccStep, hvs]
  rw [if_pos hv0]

theorem appAccStep_some_zero (name : Text) (r : GenResult) (acc : FullAppAcc) (v : Int)
    (hvs : r.voice_score = some v) (hv0 : ¬ v ≠ 0) :
    appAccStep name r acc =
      { acc with sections := acc.sections ++ [(name, r.text)],
                 total_tokens := acc.total_tokens + r.tokens_used,
                 sectionMeta := acc.sectionMeta ++ [(name, r.voice_score, r.tokens_used)] } := by
  simp only [appAccStep, hvs]
  rw [if_neg hv0]

theorem fullAppGo_spec (llmF : Text → Nat → Option (Text × Nat)) (av af : Bool)
    (ms : Int) (temperature : ℚ) :
    ∀ (names : List Text) (acc acc2 : FullAppAcc),
      fullAppGo llmF av af ms temperature names acc = .ok acc2 →
      acc2.voice_scores = acc.voice_scores
          ++ names.filterMap (sectionScoreEntry llmF av af ms temperature)
      ∧ acc2.total_score = acc.total_score
          + (((names.filterMap (sectionScoreEntry llmF av af ms temperature)).map Prod.snd).sum)
      ∧ acc2.cnt = acc.cnt
          + (names.filterMap (sectionScoreEntry llmF av af ms temperature)).length := by
  intro names
  induction names with
  | nil =>
    intro acc acc2 h
    simp only [fullAppGo] at h
    cases h
    simp
  | cons name rest ih =>
    intro acc acc2 h
    rw [fullAppGo] at h
    cases hgen : generate_section (llmF name) av af ms name temperature 3 with
    | error e =>
      rw [hgen] at h
      exact Except.noConfusion h
    | ok r =>
      rw [hgen] at h
      have h2 : fullAppGo llmF av af ms temperature rest (appAccStep name r acc)
          = Except.ok acc2 := h
      cases hvs : r.voice_score with
      | none =>
        rw [appAccStep_none name r acc hvs] at h2
        obtain ⟨hv, ht, hc⟩ := ih _ _ h2
        have hf : sectionScoreEntry llmF av af ms temperature name = none := by
          simp only [sectionScoreEntry, hgen, hvs]
        rw [List.filterMap_cons_none hf]
        exact ⟨hv, ht, hc⟩
      | some v =>
        by_cases hv0 : v ≠ 0
        · rw [appAccStep_some_ne name r acc v hvs hv0] at h2
          obtain ⟨hv, ht, hc⟩ := ih _ _ h2
          have hf : sectionScoreEntry llmF av af ms temperature name = some (name, v) := by
            simp only [sectionScoreEntry, hgen, hvs]
            rw [if_pos hv0]
          rw [List.filterMap_cons_some hf]
          refine ⟨?_, ?_, ?_⟩
          · rw [hv]
            simp [List.append_assoc]
          · rw [ht]
            simp only [List.map_cons, List.sum_cons]
            omega
          · rw [hc]
            simp only [List.length_cons]
            omega
        · rw [appAccStep_some_zero name r acc v hvs hv0] at h2
          obtain ⟨hv, ht, hc⟩ := ih _ _ h2
          have hf : sectionScoreEntry llmF av af ms temperature name = none := by
            simp only [sectionScoreEntry, hgen, hvs]
            rw [if_neg hv0]
          rw [List.filterMap_cons_none hf]
          exact ⟨hv, ht, hc⟩

/-- C8 counterexample: two sections, one completing with recorded score 0
and one with recorded score 100.  The section-level metadata records both
scores (`[some 0, some 100]`), but the truthiness test
`if result.get("voice_score"):` drops the 0-scoring section from
`voice_scores` and from the mean: the reported average is 100, not the
50 the claim requires. -/
theorem avg_zero_excluded_counterexample :
    (generate_full_application twoLLM true true 85 (7 / 10) ["A".data, "B".data]).map
        (fun app => (app.voice_scores, app.sectionMeta.map (fun x => x.2.1)))
      = Except.ok ([("B".data, 100)], [some 0, some 100])
    ∧ (generate_full_application twoLLM true true 85 (7 / 10) ["A".data, "B".data]).map
        (fun app => app.avg_voice_score)
      = Except.ok 100
    ∧ (100 : ℚ) ≠ (0 + 100) / 2 := by
  refine ⟨rfl, ?_, by norm_num⟩
  have h1 : (generate_full_application twoLLM true true 85 (7 / 10) ["A".data, "B".data]).map
        (fun app => app.avg_voice_score)
      = Except.ok (pyRound1 (((100 : Int) : ℚ) / ((1 : Nat) : ℚ))) := rfl
  rw [h1]
  have h2 : pyRound1 (((100 : Int) : ℚ) / ((1 : Nat) : ℚ)) = 100 := by
    norm_num [pyRound1]
  rw [h2]

/-- C8 (amended): `voice_scores` collects exactly the sections whose
`generate_section` result carries a truthy (present and non-zero) score
— a recorded score of 0 is excluded like a missing one — and the
reported average is `round(·, 1)` of the arithmetic mean over exactly
those entries (0 when there are none). -/
theorem avg_voice_score_truthy_mean_amended :
    ∀ (llmF : Text → Nat → Option (Text × Nat)) (av af : Bool) (ms : Int)
      (temperature : ℚ) (sections : List Text) (app : AppResult),
      generate_full_application llmF av af ms temperature sections = .ok app →
      app.voice_scores = sections.filterMap (sectionScoreEntry llmF av af ms temperature)
      ∧ app.avg_voice_score =
          (if 0 < app.voice_scores.length then
            pyRound1 (((app.voice_scores.map Prod.snd).sum : ℚ)
              / (app.voice_scores.length : ℚ))
          else 0) := by
  intro llmF av af ms temp sections app h
  unfold generate_full_application at h
  cases hgo : fullAppGo llmF av af ms temp sections ⟨[], [], [], 0, 0, 0⟩ with
  | error e =>
    rw [hgo] at h
    exact Except.noConfusion h
  | ok acc =>
    rw [hgo] at h
    have h2 : Except.ok ({ sections := acc.sections, sectionMeta := acc.sectionMeta,
                           voice_scores := acc.voice_scores, total_tokens := acc.total_tokens,
                           avg_voice_score := if 0 < acc.cnt then
                             pyRound1 ((acc.total_score : ℚ) / (acc.cnt : ℚ)) else 0 } : AppResult)
        = Except.ok app := h
    cases h2
    obtain ⟨hv, ht, hc⟩ := fullAppGo_spec llmF av af ms temp sections _ _ hgo
    simp only [List.nil_append] at hv
    constructor
    · exact hv
    · show (if 0 < acc.cnt then pyRound1 ((acc.total_score : ℚ) / (acc.cnt : ℚ)) else 0) = _
      rw [hv, ht, hc]
      norm_num

/-- Witness for C8 (amended): a single section completing with score 100. -/
theorem avg_voice_score_truthy_mean_amended_witness :
    oneApp.voice_scores
        = ["Need Statement".data].filterMap (sectionScoreEntry oneLLM true true 85 (7 / 10))
    ∧ oneApp.avg_voice_score =
        (if 0 < oneApp.voice_scores.length then
          pyRound1 (((oneApp.voice_scores.map Prod.snd).sum : ℚ)
            / (oneApp.voice_scores.length : ℚ))
        else 0) :=
  avg_voice_score_truthy_mean_amended oneLLM true true 85 (7 / 10)
    ["Need Statement".data] oneApp (by rfl)

/-- C9: the refinement corruption guard returns the pre-refinement
original exactly when the stripped refined text contains at least 3 slop
phrases, or exceeds 100 characters with a space ratio strictly below
0.10; otherwise it returns the stripped refined text. -/
theorem refine_section_corruption_guard :
    ∀ original refined_raw : Text,
      refine_section_guard original refined_raw =
        if 3 ≤ slopCount (pyStrip refined_raw)
            ∨ (100 < (pyStrip refined_raw).length
              ∧ 10 * spaceCount (pyStrip refined_raw) < (pyStrip refined_raw).length)
        then original
        else pyStrip refined_raw := by
  intro o rr
  simp only [refine_section_guard]
  split_ifs <;> first | rfl | tauto

theorem chunkCut_step (text : Text) (start : Nat) (_h : start < text.length) :
    start + 850 < chunkCut text 1500 start - 200 := by
  simp only [chunkCut]
  split_ifs with h1 h2 <;> omega

theorem chunkLoopFuel_stable (text : Text) :
    ∀ (f1 f2 start : Nat), text.length - start ≤ f1 → text.length - start ≤ f2 →
      chunkLoopFuel text 1500 200 f1 start = chunkLoopFuel text 1500 200 f2 start := by
  intro f1
  induction f1 with
  | zero =>
    intro f2 start h1 h2
    have hs : ¬ start < text.length := by omega
    cases f2 with
    | zero => rfl
    | succ m =>
      simp only [chunkLoopFuel]
      rw [if_neg hs]
  | succ k ih =>
    intro f2 start h1 h2
    cases f2 with
    | zero =>
      have hs : ¬ start < text.length := by omega
      simp only [chunkLoopFuel]
      rw [if_neg hs]
    | succ m =>
      simp only [chunkLoopFuel]
      by_cases hs : start < text.length
      · rw [if_pos hs, if_pos hs]
        have hstep := chunkCut_step text start hs
        congr 1
        exact ih m (chunkCut text 1500 start - 200) (by omega) (by omega)
      · rw [if_neg hs, if_neg hs]

/-- C10: at the configured parameters (chunk size 1500, overlap 200) each
iteration of the `chunk_text` loop advances `start` by strictly more than
0.7·1500 − 200 = 850 characters (a backward sentence-boundary cut is
accepted only past 70% of the chunk, i.e. break point ≥ 1051, giving an
advance of at least 852; an uncut chunk advances by 1300), so the loop is
well-founded: its fuel-indexed unfolding is already stable at fuel
`length + 1`, i.e. the function is total and `chunk_text` computes the
Python loop's value. -/
theorem chunk_text_termination :
    (∀ (text : Text) (start : Nat), start < text.length →
      start + 850 < chunkCut text 1500 start - 200)
    ∧ (∀ (text : Text) (fuel : Nat), text.length + 1 ≤ fuel → ∀ start : Nat,
      chunkLoopFuel text 1500 200 fuel start
        = chunkLoopFuel text 1500 200 (text.length + 1) start) := by
  constructor
  · exact chunkCut_step
  · intro text fuel hf start
    exact chunkLoopFuel_stable text fuel (text.length + 1) start (by omega) (by omega)

/-- Witness for C10 on a concrete 2000-character text: the first
iteration advances past 850, and any surplus fuel is irrelevant. -/
theorem chunk_text_termination_witness :
    (0 + 850 < chunkCut z2000 1500 0 - 200)
    ∧ chunkLoopFuel z2000 1500 200 2002 0
        = chunkLoopFuel z2000 1500 200 (z2000.length + 1) 0 :=
  ⟨chunk_text_termination.1 z2000 0 (by norm_num [z2000]),
   chunk_text_termination.2 z2000 2002 (by norm_num [z2000]) 0⟩

end GrantLab
